import Mathlib

/-!
Verification of the scan orchestrator of the `gemini-a11y-extension` repository
(`src/server.ts`). The TypeScript source is shallowly embedded: the pure
string/tag transformations become Lean functions over `String` / `List Char`,
and the effectful scan strategies become explicit state-passing functions over
a browser-resource state, with the outcomes of the external capabilities
(browser launch, navigation, rule-engine evaluation, ...) supplied by an
oracle record.
-/

namespace A11y

/-! ## Conformance tag resolver (`tagsFor`, server.ts lines 9-14) -/

/-- The `ruleset` enum of the request schema: `z.enum(["wcag22", "wcag21"])`. -/
inductive Ruleset
  | wcag22
  | wcag21
deriving DecidableEq

/-- The `level` enum of the request schema: `z.enum(["A", "AA", "AAA"])`. -/
inductive Level
  | A
  | AA
  | AAA
deriving DecidableEq

/-- The string carried by a `Ruleset` value. -/
def Ruleset.str : Ruleset → String
  | .wcag22 => "wcag22"
  | .wcag21 => "wcag21"

/-- The string carried by a `Level` value. -/
def Level.str : Level → String
  | .A => "A"
  | .AA => "AA"
  | .AAA => "AAA"

/-- Model of the JavaScript `String.prototype.toLowerCase()` capability:
lowercases every character (the tags involved are ASCII). -/
def strToLower (s : String) : String := String.mk (s.data.map Char.toLower)

/-- Embeds `tagsFor` (server.ts lines 9-14): ruleset defaults to `wcag22`,
level defaults to `AA`, the base tag is
`r.toLowerCase() ++ lvl.toLowerCase()`, and the result is
`[base, ...extra]`. -/
def tagsFor (ruleset : Option Ruleset) (level : Option Level)
    (extra : Option (List String)) : List String :=
  let r := ruleset.getD Ruleset.wcag22
  let lvl := level.getD Level.AA
  let base := [strToLower r.str ++ strToLower lvl.str]
  base ++ extra.getD []

/-! ## Standards-ID mapper (`wcagScFromTags`, server.ts lines 17-21, and
`wcagLinks`, lines 24-32) -/

/-- Embeds the test `/^wcag\d{3}$/i.test(t)` of server.ts line 19: exactly the
four letters `wcag` matched ASCII-case-insensitively, followed by exactly
three decimal digits. -/
def matchesWcagTag (t : String) : Bool :=
  match t.data with
  | [c1, c2, c3, c4, d1, d2, d3] =>
    (c1 == 'w' || c1 == 'W') && (c2 == 'c' || c2 == 'C') &&
    (c3 == 'a' || c3 == 'A') && (c4 == 'g' || c4 == 'G') &&
    d1.isDigit && d2.isDigit && d3.isDigit
  | _ => false

/-- Embeds `t.replace(/^wcag/, "")` of server.ts line 20: the replacement
regex is case-sensitive, so only an exact lowercase `wcag` prefix is
removed. -/
def stripWcag : List Char → List Char
  | 'w' :: 'c' :: 'a' :: 'g' :: rest => rest
  | cs => cs

/-- Embeds `.split("").join(".")` of server.ts line 20: interleaves a dot
between every pair of adjacent characters. -/
def dotJoin : List Char → List Char
  | [] => []
  | [c] => [c]
  | c :: rest => c :: '.' :: dotJoin rest

/-- Embeds `.replace(/\.(\d)(\d)$/, ".$1.$2")` of server.ts line 20: when the
string ends in a dot followed by two digits, a dot is inserted between those
two digits; otherwise the string is unchanged. Matching is done on the
reversed character list (the regex is anchored at the end). -/
def dotSplitLastTwo (cs : List Char) : List Char :=
  match cs.reverse with
  | r1 :: r2 :: r3 :: rest =>
    if r3 == '.' && r2.isDigit && r1.isDigit then
      (r3 :: rest).reverse ++ [r2, '.', r1]
    else cs
  | _ => cs

/-- The per-tag transformation of server.ts line 20:
`t.replace(/^wcag/, "").split("").join(".").replace(/\.(\d)(\d)$/, ".$1.$2")`. -/
def scIdOfTag (t : String) : String :=
  String.mk (dotSplitLastTwo (dotJoin (stripWcag t.data)))

/-- Embeds `wcagScFromTags` (server.ts lines 17-21): filter by the
case-insensitive tag pattern, then apply the per-tag transformation. -/
def wcagScFromTags (tags : List String) : List String :=
  (tags.filter matchesWcagTag).map scIdOfTag

/-- Statement-side predicate: a string of the shape digit `.` digit `.`
digit, the shape the specification claims for every returned identifier. -/
def isDottedScId (s : String) : Bool :=
  match s.data with
  | [a, p1, b, p2, c] => a.isDigit && p1 == '.' && b.isDigit && p2 == '.' && c.isDigit
  | _ => false

/-- Embeds `sc.replaceAll(".", "")` of server.ts line 28. -/
def removeDots (s : String) : String :=
  String.mk (s.data.filter (fun c => c != '.'))

/-- The record built by `wcagLinks` (server.ts lines 24-32). -/
structure WcagLinks where
  spec : String
  quickref : String
  understanding : String
deriving DecidableEq

/-- Embeds `wcagLinks` (server.ts lines 24-32). -/
def wcagLinks (sc : String) (prefer : Ruleset) : WcagLinks :=
  let spec := match prefer with
    | Ruleset.wcag22 => "WCAG22"
    | Ruleset.wcag21 => "WCAG21"
  { spec := "https://www.w3.org/TR/" ++ spec ++ "/"
    quickref := "https://www.w3.org/WAI/" ++ spec ++ "/quickref/#" ++ removeDots sc
    understanding := "https://www.w3.org/WAI/" ++ spec ++ "/Understanding/" }

/-- The TypeScript signature gives `prefer` the default value `"wcag22"`;
`wcagLinksDefault` is a call that omits the argument. -/
def wcagLinksDefault (sc : String) : WcagLinks :=
  wcagLinks sc Ruleset.wcag22

/-- Statement-side suffix test over character lists (structural, so that
concrete instances evaluate). -/
def strEndsWith (s suffixStr : String) : Bool :=
  List.isSuffixOf suffixStr.data s.data

/-! ## Result summarizer (`summarize_results`, server.ts lines 215-237) -/

/-- One axe violation record, with the fields the summarizer reads (`help`,
`impact`, `description`, `tags`, `helpUrl`, `nodes`) plus the rule id `id`,
which axe also reports but the summarizer never touches. `nodes` keeps the
node descriptors opaque as strings; only its length is read. -/
structure Violation where
  id : String
  help : String
  impact : String
  description : String
  tags : List String
  helpUrl : String
  nodes : List String
deriving DecidableEq

/-- A parsed scan payload: the `violations` array plus the `passes`,
`incomplete` and `inapplicable` arrays, which the orchestrator treats as
opaque pass-through data (kept abstract as counts here). -/
structure ScanResult where
  violations : List Violation
  passes : Nat
  incomplete : Nat
  inapplicable : Nat
deriving DecidableEq

/-- The filter of server.ts lines 218-220:
`v.impact === "critical" || v.impact === "serious"`. -/
def isTopIssue (v : Violation) : Bool :=
  v.impact == "critical" || v.impact == "serious"

/-- The per-issue text appended by the `forEach` body of server.ts
lines 225-231. -/
def issueBlock (issue : Violation) : String :=
  "- **" ++ issue.help ++ "** (Impact: " ++ issue.impact ++ ")\n" ++
  "  - " ++ issue.description ++ "\n" ++
  "  - WCAG: " ++ String.intercalate ", " (wcagScFromTags issue.tags) ++ "\n" ++
  "  - Learn more: " ++ issue.helpUrl ++ "\n" ++
  "  - Found in " ++ toString issue.nodes.length ++ " element(s).\n"

/-- Embeds the `summarize_results` handler body (server.ts lines 215-237),
after the `JSON.parse` transport step: count all violations, filter the top
issues, and render either each issue block in order or the fixed sentinel
line. -/
def summarize_results (results : ScanResult) : String :=
  let violations := results.violations
  let topIssues := violations.filter isTopIssue
  let s1 := "Found " ++ toString violations.length ++ " total violations.\n\n"
  let s2 := s1 ++ "**Top Issues (Critical and Serious):**\n"
  if topIssues.length > 0 then
    topIssues.foldl (fun acc issue => acc ++ issueBlock issue) s2
  else
    s2 ++ "No critical or serious issues found.\n"

/-- Statement-side: the fixed header of the summary text for a total count
`n`. -/
def summaryHeader (n : Nat) : String :=
  "Found " ++ toString n ++ " total violations.\n\n" ++
  "**Top Issues (Critical and Serious):**\n"

/-- Statement-side: concatenation of a list of strings. -/
def concatBlocks : List String → String
  | [] => ""
  | s :: rest => s ++ concatBlocks rest

/-- Statement-side: what the summary renders after the header — the issue
blocks of the given violations in order, or the sentinel line when there are
none. -/
def renderTopIssues (l : List Violation) : String :=
  if l.length > 0 then concatBlocks (l.map issueBlock)
  else "No critical or serious issues found.\n"

/-- The violation fields the summary text is claimed to depend on. -/
def digestFields (v : Violation) :
    String × String × String × List String × String × List String :=
  (v.help, v.impact, v.description, v.tags, v.helpUrl, v.nodes)

/-! ## Browser session model

The scan strategies of server.ts drive external capabilities (puppeteer and
the injected rule engine). Each capability call is modelled as an explicit
state transition over `BrowserSt`; the outcome of each call (success, or the
error it throws) is supplied by an `Oracle`, indexed by the number of
capability calls made so far, so that distinct calls may fail
independently. -/

/-- One capability call, as recorded in the execution trace. Navigation and
wait events carry the timeout bound passed by the source (always 60000 ms). -/
inductive Ev
  | launch
  | newPage
  | gotoUrl (url : String) (timeoutMs : Nat)
  | setContent (timeoutMs : Nat)
  | readFileEv (path : String)
  | typeText (selector text : String)
  | click (selector : String)
  | waitForNavigation (timeoutMs : Nat)
  | addScriptTag
  | evaluateAxe (tags : List String)
  | pageClose
  | browserClose
deriving DecidableEq

/-- The browser-resource state of one tool call: whether the browser process
is open, how many pages are open, whether a launch ever succeeded, the
number of capability calls attempted, and the trace of successful calls. -/
structure BrowserSt where
  browserOpen : Bool
  openPages : Nat
  launched : Bool
  steps : Nat
  trace : List Ev
deriving DecidableEq

/-- The state at the start of a tool call: nothing open, nothing attempted. -/
def initSt : BrowserSt :=
  { browserOpen := false, openPages := 0, launched := false, steps := 0, trace := [] }

/-- Outcomes of the external capabilities. Step-indexed fields receive the
value of the `steps` counter at the moment of the call. -/
structure Oracle where
  launchOk : Bool
  newPageOk : Nat → Bool
  gotoOk : Nat → Bool
  setContentOk : Nat → Bool
  readFileRes : String → Except String String
  typeOk : Nat → Bool
  clickOk : Nat → Bool
  waitNavOk : Nat → Bool
  addScriptOk : Nat → Bool
  evalRes : Nat → Except String ScanResult
  pageCloseOk : Nat → Bool
  browserCloseOk : Bool

/-- `puppeteer.launch({ headless: true })`. -/
def opLaunch (o : Oracle) (s : BrowserSt) : Except String Unit × BrowserSt :=
  let s1 := { s with steps := s.steps + 1 }
  if o.launchOk then
    (Except.ok (), { s1 with browserOpen := true, launched := true,
                             trace := s1.trace ++ [Ev.launch] })
  else (Except.error "LaunchError", s1)

/-- `browser.newPage()`. -/
def opNewPage (o : Oracle) (s : BrowserSt) : Except String Unit × BrowserSt :=
  let s1 := { s with steps := s.steps + 1 }
  if o.newPageOk s.steps then
    (Except.ok (), { s1 with openPages := s1.openPages + 1,
                             trace := s1.trace ++ [Ev.newPage] })
  else (Except.error "NewPageError", s1)

/-- `page.goto(url, { waitUntil: "networkidle2", timeout })`. The url is an
`Option` because the `scan_url` handler passes `args.url!` where the schema
lets `url` be absent; navigating to an absent url throws. -/
def opGoto (o : Oracle) (url : Option String) (timeoutMs : Nat) (s : BrowserSt) :
    Except String Unit × BrowserSt :=
  let s1 := { s with steps := s.steps + 1 }
  match url with
  | none => (Except.error "InvalidURLError", s1)
  | some u =>
    if o.gotoOk s.steps then
      (Except.ok (), { s1 with trace := s1.trace ++ [Ev.gotoUrl u timeoutMs] })
    else (Except.error "NavigationError", s1)

/-- `page.setContent(html, { waitUntil: "domcontentloaded", timeout })`. -/
def opSetContent (o : Oracle) (timeoutMs : Nat) (s : BrowserSt) :
    Except String Unit × BrowserSt :=
  let s1 := { s with steps := s.steps + 1 }
  if o.setContentOk s.steps then
    (Except.ok (), { s1 with trace := s1.trace ++ [Ev.setContent timeoutMs] })
  else (Except.error "SetContentError", s1)

/-- `readFile(path, "utf-8")`, returning the file content. -/
def opReadFile (o : Oracle) (path : String) (s : BrowserSt) :
    Except String String × BrowserSt :=
  let s1 := { s with steps := s.steps + 1 }
  match o.readFileRes path with
  | Except.ok content =>
    (Except.ok content, { s1 with trace := s1.trace ++ [Ev.readFileEv path] })
  | Except.error e => (Except.error e, s1)

/-- `page.type(selector, text)`. -/
def opTypeText (o : Oracle) (selector text : String) (s : BrowserSt) :
    Except String Unit × BrowserSt :=
  let s1 := { s with steps := s.steps + 1 }
  if o.typeOk s.steps then
    (Except.ok (), { s1 with trace := s1.trace ++ [Ev.typeText selector text] })
  else (Except.error "TypeError", s1)

/-- `page.click(selector)`. -/
def opClick (o : Oracle) (selector : String) (s : BrowserSt) :
    Except String Unit × BrowserSt :=
  let s1 := { s with steps := s.steps + 1 }
  if o.clickOk s.steps then
    (Except.ok (), { s1 with trace := s1.trace ++ [Ev.click selector] })
  else (Except.error "ClickError", s1)

/-- `page.waitForNavigation({ waitUntil: "networkidle2", timeout })`. -/
def opWaitForNavigation (o : Oracle) (timeoutMs : Nat) (s : BrowserSt) :
    Except String Unit × BrowserSt :=
  let s1 := { s with steps := s.steps + 1 }
  if o.waitNavOk s.steps then
    (Except.ok (), { s1 with trace := s1.trace ++ [Ev.waitForNavigation timeoutMs] })
  else (Except.error "TimeoutError", s1)

/-- `page.addScriptTag({ content: axe.source })`. -/
def opAddScriptTag (o : Oracle) (s : BrowserSt) : Except String Unit × BrowserSt :=
  let s1 := { s with steps := s.steps + 1 }
  if o.addScriptOk s.steps then
    (Except.ok (), { s1 with trace := s1.trace ++ [Ev.addScriptTag] })
  else (Except.error "AddScriptError", s1)

/-- `page.evaluate(... axe.run(document, options) ...)` with the tag filter. -/
def opEvaluateAxe (o : Oracle) (tags : List String) (s : BrowserSt) :
    Except String ScanResult × BrowserSt :=
  let s1 := { s with steps := s.steps + 1 }
  match o.evalRes s.steps with
  | Except.ok r =>
    (Except.ok r, { s1 with trace := s1.trace ++ [Ev.evaluateAxe tags] })
  | Except.error e => (Except.error e, s1)

/-- `page.close()` inside the batch loop. The page handle is relinquished
even when the call reports an error. -/
def opPageClose (o : Oracle) (s : BrowserSt) : Except String Unit × BrowserSt :=
  let s1 := { s with steps := s.steps + 1, openPages := s.openPages - 1,
                     trace := s.trace ++ [Ev.pageClose] }
  if o.pageCloseOk s.steps then (Except.ok (), s1)
  else (Except.error "PageCloseError", s1)

/-- `browser.close()`: tears down the browser process and every page opened
from it, even when the call reports an error. -/
def opBrowserClose (o : Oracle) (s : BrowserSt) : Except String Unit × BrowserSt :=
  let s1 := { s with steps := s.steps + 1, browserOpen := false, openPages := 0,
                     trace := s.trace ++ [Ev.browserClose] }
  if o.browserCloseOk then (Except.ok (), s1)
  else (Except.error "BrowserCloseError", s1)

/-- JavaScript `try { body } finally { fin }`: `fin` always runs, and an
error thrown by `fin` replaces whatever `body` produced. -/
def tryFinally (body : BrowserSt → Except String α × BrowserSt)
    (fin : BrowserSt → Except String Unit × BrowserSt) (s : BrowserSt) :
    Except String α × BrowserSt :=
  let p := body s
  let q := fin p.2
  match q.1 with
  | Except.error e => (Except.error e, q.2)
  | Except.ok _ => (p.1, q.2)

/-- The shared shape of every tool handler:
`const browser = await puppeteer.launch(...); try { work } finally { await browser.close(); }`. -/
def withBrowser (o : Oracle) (work : BrowserSt → Except String α × BrowserSt)
    (s : BrowserSt) : Except String α × BrowserSt :=
  match opLaunch o s with
  | (Except.error e, s1) => (Except.error e, s1)
  | (Except.ok _, s1) => tryFinally work (opBrowserClose o) s1

/-- `runAxeOnPage` (server.ts lines 34-49): inject the rule-engine source,
then evaluate it with the tag filter. -/
def runAxeOnPage (o : Oracle) (runOnlyTags : List String) (s : BrowserSt) :
    Except String ScanResult × BrowserSt :=
  match opAddScriptTag o s with
  | (Except.error e, s1) => (Except.error e, s1)
  | (Except.ok _, s1) => opEvaluateAxe o runOnlyTags s1

/-! ### Request shapes (the zod schemas) -/

/-- The fields `scan_url` picks from `ScanArgs` (server.ts lines 53-59, 63):
`url` is declared `z.string().url().optional()`, so it may be absent. -/
structure ScanUrlArgs where
  url : Option String
  ruleset : Option Ruleset
  level : Option Level
  extraTags : Option (List String)

/-- The fields `scan_html` picks from `ScanArgs`: `html` is optional. -/
structure ScanHtmlArgs where
  html : Option String
  ruleset : Option Ruleset
  level : Option Level
  extraTags : Option (List String)

/-- The `scan_file` schema (server.ts line 133): `path` is required. -/
structure ScanFileArgs where
  path : String
  ruleset : Option Ruleset
  level : Option Level
  extraTags : Option (List String)

/-- The `scan_batch` schema (server.ts lines 99-104): `urls` is required. -/
structure BatchArgs where
  urls : List String
  ruleset : Option Ruleset
  level : Option Level
  extraTags : Option (List String)

/-- The `scan_with_login` schema (server.ts lines 150-161): all seven string
fields are required. -/
structure LoginArgs where
  url : String
  loginUrl : String
  username : String
  password : String
  usernameSelector : String
  passwordSelector : String
  submitSelector : String
  ruleset : Option Ruleset
  level : Option Level
  extraTags : Option (List String)

/-- Pre-flight validation of a `scan_url` request, as the `ScanArgs` zod
schema performs it: an absent `url` passes (the field is `.optional()`); a
present `url` is checked by `z.string().url()`, modelled by the abstract
well-formedness predicate `urlOk`. -/
def validateScanUrl (urlOk : String → Bool) (a : ScanUrlArgs) : Bool :=
  match a.url with
  | none => true
  | some u => urlOk u

/-! ### The five scan strategies (tool handler bodies) -/

/-- The try-block of the `scan_url` handler (server.ts lines 67-73). -/
def scanUrlWork (o : Oracle) (a : ScanUrlArgs) (s : BrowserSt) :
    Except String ScanResult × BrowserSt :=
  match opNewPage o s with
  | (Except.error e, s1) => (Except.error e, s1)
  | (Except.ok _, s1) =>
    match opGoto o a.url 60000 s1 with
    | (Except.error e, s2) => (Except.error e, s2)
    | (Except.ok _, s2) =>
      runAxeOnPage o (tagsFor a.ruleset a.level a.extraTags) s2

/-- The `scan_url` handler (server.ts lines 61-76). -/
def scan_url (o : Oracle) (a : ScanUrlArgs) (s : BrowserSt) :
    Except String ScanResult × BrowserSt :=
  withBrowser o (scanUrlWork o a) s

/-- The try-block of the `scan_html` handler (server.ts lines 84-90). -/
def scanHtmlWork (o : Oracle) (a : ScanHtmlArgs) (s : BrowserSt) :
    Except String ScanResult × BrowserSt :=
  match opNewPage o s with
  | (Except.error e, s1) => (Except.error e, s1)
  | (Except.ok _, s1) =>
    match opSetContent o 60000 s1 with
    | (Except.error e, s2) => (Except.error e, s2)
    | (Except.ok _, s2) =>
      runAxeOnPage o (tagsFor a.ruleset a.level a.extraTags) s2

/-- The `scan_html` handler (server.ts lines 78-93). -/
def scan_html (o : Oracle) (a : ScanHtmlArgs) (s : BrowserSt) :
    Except String ScanResult × BrowserSt :=
  withBrowser o (scanHtmlWork o a) s

/-- The try-block of the `scan_file` handler (server.ts lines 137-145): the
file read happens inside the try, after the page is opened. -/
def scanFileWork (o : Oracle) (a : ScanFileArgs) (s : BrowserSt) :
    Except String ScanResult × BrowserSt :=
  match opNewPage o s with
  | (Except.error e, s1) => (Except.error e, s1)
  | (Except.ok _, s1) =>
    match opReadFile o a.path s1 with
    | (Except.error e, s2) => (Except.error e, s2)
    | (Except.ok _, s2) =>
      match opSetContent o 60000 s2 with
      | (Except.error e, s3) => (Except.error e, s3)
      | (Except.ok _, s3) =>
        runAxeOnPage o (tagsFor a.ruleset a.level a.extraTags) s3

/-- The `scan_file` handler (server.ts lines 131-148). -/
def scan_file (o : Oracle) (a : ScanFileArgs) (s : BrowserSt) :
    Except String ScanResult × BrowserSt :=
  withBrowser o (scanFileWork o a) s

/-- The try-block of the `scan_with_login` handler (server.ts lines
172-198): login navigation, credentials, submit, post-submit wait, target
navigation, rule-engine run — strictly in that order. -/
def scanLoginWork (o : Oracle) (a : LoginArgs) (s : BrowserSt) :
    Except String ScanResult × BrowserSt :=
  match opNewPage o s with
  | (Except.error e, s1) => (Except.error e, s1)
  | (Except.ok _, s1) =>
    match opGoto o (some a.loginUrl) 60000 s1 with
    | (Except.error e, s2) => (Except.error e, s2)
    | (Except.ok _, s2) =>
      match opTypeText o a.usernameSelector a.username s2 with
      | (Except.error e, s3) => (Except.error e, s3)
      | (Except.ok _, s3) =>
        match opTypeText o a.passwordSelector a.password s3 with
        | (Except.error e, s4) => (Except.error e, s4)
        | (Except.ok _, s4) =>
          match opClick o a.submitSelector s4 with
          | (Except.error e, s5) => (Except.error e, s5)
          | (Except.ok _, s5) =>
            match opWaitForNavigation o 60000 s5 with
            | (Except.error e, s6) => (Except.error e, s6)
            | (Except.ok _, s6) =>
              match opGoto o (some a.url) 60000 s6 with
              | (Except.error e, s7) => (Except.error e, s7)
              | (Except.ok _, s7) =>
                runAxeOnPage o (tagsFor a.ruleset a.level a.extraTags) s7

/-- The `scan_with_login` handler (server.ts lines 163-203). -/
def scan_with_login (o : Oracle) (a : LoginArgs) (s : BrowserSt) :
    Except String ScanResult × BrowserSt :=
  withBrowser o (scanLoginWork o a) s

/-! ### The batch strategy -/

/-- One entry of the batch output array: `{ url, results }` on success,
`{ url, error }` on a caught per-target failure. -/
inductive BatchEntry
  | res (url : String) (result : ScanResult)
  | err (url : String) (message : String)
deriving DecidableEq

/-- The url an entry refers to. -/
def BatchEntry.target : BatchEntry → String
  | .res u _ => u
  | .err u _ => u

/-- The inner `try { goto; axe; push ok } catch (e) { push error }` of the
batch loop (server.ts lines 114-121): failures of navigation or evaluation
are caught and recorded; the entry always carries the target url. -/
def batchScanEntry (o : Oracle) (a : BatchArgs) (url : String) (s : BrowserSt) :
    BatchEntry × BrowserSt :=
  match opGoto o (some url) 60000 s with
  | (Except.error e, s1) => (BatchEntry.err url e, s1)
  | (Except.ok _, s1) =>
    match runAxeOnPage o (tagsFor a.ruleset a.level a.extraTags) s1 with
    | (Except.error e, s2) => (BatchEntry.err url e, s2)
    | (Except.ok r, s2) => (BatchEntry.res url r, s2)

/-- The `for (const url of args.urls)` loop of the batch handler (server.ts
lines 111-125). `browser.newPage()` runs before the inner try and
`page.close()` runs in the inner finally, so an error from either of them
propagates out of the loop instead of being recorded. -/
def batchLoop (o : Oracle) (a : BatchArgs) :
    List String → List BatchEntry → BrowserSt →
    Except String (List BatchEntry) × BrowserSt
  | [], acc, s => (Except.ok acc, s)
  | url :: rest, acc, s =>
    match opNewPage o s with
    | (Except.error e, s1) => (Except.error e, s1)
    | (Except.ok _, s1) =>
      let p := batchScanEntry o a url s1
      match opPageClose o p.2 with
      | (Except.error e, s3) => (Except.error e, s3)
      | (Except.ok _, s3) => batchLoop o a rest (acc ++ [p.1]) s3

/-- The `scan_batch` handler (server.ts lines 95-129). -/
def scan_batch (o : Oracle) (a : BatchArgs) (s : BrowserSt) :
    Except String (List BatchEntry) × BrowserSt :=
  withBrowser o (batchLoop o a a.urls []) s

/-! ### Concrete oracles, arguments and payloads used by the closed
theorems -/

/-- An empty axe payload, used as the value returned by successful
evaluations in the concrete oracles. -/
def emptyScanResult : ScanResult :=
  { violations := [], passes := 0, incomplete := 0, inapplicable := 0 }

/-- The oracle on which every capability call succeeds. -/
def okOracle : Oracle :=
  { launchOk := true
    newPageOk := fun _ => true
    gotoOk := fun _ => true
    setContentOk := fun _ => true
    readFileRes := fun _ => Except.ok "<html></html>"
    typeOk := fun _ => true
    clickOk := fun _ => true
    waitNavOk := fun _ => true
    addScriptOk := fun _ => true
    evalRes := fun _ => Except.ok emptyScanResult
    pageCloseOk := fun _ => true
    browserCloseOk := true }

/-- Like `okOracle`, except that `browser.close()` fails. -/
def badCloseOracle : Oracle :=
  { okOracle with browserCloseOk := false }

/-- Like `okOracle`, except that `browser.newPage()` fails. -/
def badNewPageOracle : Oracle :=
  { okOracle with newPageOk := fun _ => false }

/-- A well-formed `scan_url` request. -/
def sampleUrlArgs : ScanUrlArgs :=
  { url := some "https://example.com/", ruleset := none, level := none,
    extraTags := none }

/-- A `scan_url` request with the `url` field absent. -/
def noUrlArgs : ScanUrlArgs :=
  { url := none, ruleset := none, level := none, extraTags := none }

/-- A two-target batch request. -/
def twoUrlBatchArgs : BatchArgs :=
  { urls := ["https://a.example/", "https://b.example/"], ruleset := none,
    level := none, extraTags := none }

/-- A moderate-impact violation record. -/
def moderateViolation : Violation :=
  { id := "region", help := "All page content should be contained by landmarks",
    impact := "moderate", description := "Ensure all content is in a landmark",
    tags := ["wcag211"], helpUrl := "https://help.example/region",
    nodes := ["body"] }

/-- A minor-impact violation record. -/
def minorViolation : Violation :=
  { id := "frame-tested", help := "Frames should be tested",
    impact := "minor", description := "Ensure frames are tested",
    tags := ["bestpractice"], helpUrl := "https://help.example/frame",
    nodes := ["iframe", "iframe2"] }

/-- A critical-impact violation record. -/
def criticalViolation : Violation :=
  { id := "image-alt", help := "Images must have alternate text",
    impact := "critical", description := "Ensure img elements have alt text",
    tags := ["wcag111"], helpUrl := "https://help.example/image-alt",
    nodes := ["img"] }

/-- A payload whose violations are all moderate or minor. -/
def noTopPayload : ScanResult :=
  { violations := [moderateViolation, minorViolation], passes := 3,
    incomplete := 1, inapplicable := 2 }

/-- A payload with one critical and one moderate violation. -/
def mixedPayload : ScanResult :=
  { violations := [criticalViolation, moderateViolation], passes := 0,
    incomplete := 0, inapplicable := 0 }

/-- No browser resource is open in the state: the browser process is closed
and no page remains. -/
def closedAfter (s : BrowserSt) : Prop :=
  s.browserOpen = false ∧ s.openPages = 0

/-- A well-formed `scan_html` request. -/
def sampleHtmlArgs : ScanHtmlArgs :=
  { html := some "<html><body><img></body></html>", ruleset := none,
    level := none, extraTags := none }

/-- A well-formed `scan_file` request. -/
def sampleFileArgs : ScanFileArgs :=
  { path := "/tmp/page.html", ruleset := none, level := none, extraTags := none }

/-- A well-formed `scan_with_login` request. -/
def sampleLoginArgs : LoginArgs :=
  { url := "https://example.com/dashboard",
    loginUrl := "https://example.com/login",
    username := "alice", password := "secret",
    usernameSelector := "#user", passwordSelector := "#pass",
    submitSelector := "#submit",
    ruleset := none, level := none, extraTags := none }

/-- A one-violation payload. -/
def payloadA : ScanResult :=
  { violations := [criticalViolation], passes := 0, incomplete := 0,
    inapplicable := 0 }

/-- The same payload as `payloadA` except for the violation's rule `id` and
the three opaque pass-through fields, none of which the summary is claimed
to depend on. -/
def payloadB : ScanResult :=
  { violations := [{ criticalViolation with id := "img-alt-renamed" }],
    passes := 11, incomplete := 5, inapplicable := 9 }

/-! ## Theorems -/

/-- C7: with ruleset defaulting to `wcag22` and level defaulting to `AA`,
`tagsFor` returns exactly `[baseTag, ...extra]` where the base tag is the
lowercase concatenation of ruleset and level, and the extra tags pass
through unmodified, without validation or deduplication; in particular
`resolve("wcag21","AAA")[0] = "wcag21aaa"`. -/
theorem spec_c7 :
    ∀ (r : Option Ruleset) (l : Option Level) (e : Option (List String)),
    tagsFor r l e
        = strToLower ((r.getD Ruleset.wcag22).str ++ (l.getD Level.AA).str)
            :: e.getD []
      ∧ tagsFor none none e = tagsFor (some Ruleset.wcag22) (some Level.AA) e
      ∧ (tagsFor (some Ruleset.wcag21) (some Level.AAA) e).head?
          = some "wcag21aaa" := by
  intro r l e
  refine ⟨?_, rfl, rfl⟩
  rcases r with _ | r
  · rcases l with _ | l
    · rfl
    · cases l <;> rfl
  · rcases l with _ | l
    · cases r <;> rfl
    · cases r <;> cases l <;> rfl

/-- C8: for every standards id and both rulesets, `wcagLinks` builds the
spec url `https://www.w3.org/TR/<SPEC>/`, the quick-reference url
`https://www.w3.org/WAI/<SPEC>/quickref/#` followed by the id with its dots
removed, and the fixed Understanding landing page, with `<SPEC>` being
`WCAG22` for `wcag22` (the default) and `WCAG21` for `wcag21`; in
particular `wcagLinks "1.4.3" wcag22` has spec url
`https://www.w3.org/TR/WCAG22/` and its quickref url ends with `#143`. -/
theorem spec_c8 :
    ∀ sc : String,
    (wcagLinks sc Ruleset.wcag22).spec = "https://www.w3.org/TR/WCAG22/"
      ∧ (wcagLinks sc Ruleset.wcag21).spec = "https://www.w3.org/TR/WCAG21/"
      ∧ (wcagLinks sc Ruleset.wcag22).quickref
          = "https://www.w3.org/WAI/WCAG22/quickref/#" ++ removeDots sc
      ∧ (wcagLinks sc Ruleset.wcag21).quickref
          = "https://www.w3.org/WAI/WCAG21/quickref/#" ++ removeDots sc
      ∧ (wcagLinks sc Ruleset.wcag22).understanding
          = "https://www.w3.org/WAI/WCAG22/Understanding/"
      ∧ (wcagLinks sc Ruleset.wcag21).understanding
          = "https://www.w3.org/WAI/WCAG21/Understanding/"
      ∧ wcagLinksDefault sc = wcagLinks sc Ruleset.wcag22
      ∧ (wcagLinks "1.4.3" Ruleset.wcag22).spec = "https://www.w3.org/TR/WCAG22/"
      ∧ strEndsWith (wcagLinks "1.4.3" Ruleset.wcag22).quickref "#143" = true := by
  intro sc
  exact ⟨rfl, rfl, rfl, rfl, rfl, rfl, rfl, rfl, by decide⟩

/-- A digit character is not a dot. -/
theorem digit_ne_dot {c : Char} (h : c.isDigit = true) : (c == '.') = false := by
  rcases hb : c == '.' with _ | _
  · rfl
  · exfalso
    have hc : c = '.' := beq_iff_eq.mp hb
    rw [hc] at h
    simp [Char.isDigit] at h

/-- A tag of the shape lowercase `wcag` followed by three digits passes the
case-insensitive tag filter. -/
theorem matchesWcagTag_lower {d1 d2 d3 : Char} (h1 : d1.isDigit = true)
    (h2 : d2.isDigit = true) (h3 : d3.isDigit = true) :
    matchesWcagTag (String.mk ['w', 'c', 'a', 'g', d1, d2, d3]) = true := by
  simp [matchesWcagTag, h1, h2, h3]

/-- The per-tag transformation sends a lowercase `wcag`-prefixed three-digit
tag to the dotted identifier of its digits. -/
theorem scIdOfTag_lower {d1 d2 d3 : Char} (h2 : d2.isDigit = true) :
    scIdOfTag (String.mk ['w', 'c', 'a', 'g', d1, d2, d3])
      = String.mk [d1, '.', d2, '.', d3] := by
  simp [scIdOfTag, stripWcag, dotJoin, dotSplitLastTwo, digit_ne_dot h2]

/-- C1 (amended): `wcagScFromTags` keeps exactly the tags matching the
case-insensitive pattern `wcag` + three digits, preserving order without
deduplication, and maps each kept tag whose prefix is exactly the lowercase
`wcag` to the dotted identifier of its three digits; a kept tag with any
other casing of the prefix is not stripped and is instead interleaved with
dots wholesale (see the counterexample), so not every returned identifier
has the digit-dot-digit-dot-digit shape. For lowercase inputs the claimed
example holds: `idsFromTags ["wcag143", "wcag211", "foo"] = ["1.4.3", "2.1.1"]`. -/
theorem spec_c1 :
    ∀ (pre suf : List String) (d1 d2 d3 : Char),
    d1.isDigit = true → d2.isDigit = true → d3.isDigit = true →
    (wcagScFromTags (pre ++ String.mk ['w', 'c', 'a', 'g', d1, d2, d3] :: suf)
        = wcagScFromTags pre
            ++ String.mk [d1, '.', d2, '.', d3] :: wcagScFromTags suf)
    ∧ (∀ t : String, matchesWcagTag t = false →
        wcagScFromTags (pre ++ t :: suf) = wcagScFromTags (pre ++ suf))
    ∧ wcagScFromTags ["wcag143", "wcag211", "foo"] = ["1.4.3", "2.1.1"] := by
  intro pre suf d1 d2 d3 h1 h2 h3
  refine ⟨?_, ?_, by decide⟩
  · simp [wcagScFromTags, List.filter_append, List.filter_cons,
      matchesWcagTag_lower h1 h2 h3, scIdOfTag_lower h2]
  · intro t ht
    simp [wcagScFromTags, List.filter_append, List.filter_cons, ht]

/-- C1 counterexample: the tag `WCAG143` is kept by the case-insensitive
filter, but the case-sensitive prefix strip does not fire, so the returned
identifier is `W.C.A.G.1.4.3`, not `1.4.3`, and it does not have the
digit-dot-digit-dot-digit shape the claim asserts for every output. -/
theorem spec_c1_counterexample :
    matchesWcagTag "WCAG143" = true
    ∧ wcagScFromTags ["WCAG143"] = ["W.C.A.G.1.4.3"]
    ∧ wcagScFromTags ["WCAG143"] ≠ ["1.4.3"]
    ∧ isDottedScId "W.C.A.G.1.4.3" = false := by
  exact ⟨by decide, by decide, by decide, by decide⟩

/-- String append is associative (at the level of character data). -/
theorem strAppendAssoc (a b c : String) : a ++ b ++ c = a ++ (b ++ c) := by
  apply String.ext
  cases a; cases b; cases c
  simp

/-- The empty string is a right identity for append. -/
theorem strAppendEmpty (a : String) : a ++ "" = a := by
  apply String.ext
  cases a
  simp

/-- The `forEach` accumulation of the summarizer appends the concatenation
of the issue blocks to the initial string. -/
theorem foldl_append_blocks (l : List Violation) :
    ∀ init : String,
    l.foldl (fun acc issue => acc ++ issueBlock issue) init
      = init ++ concatBlocks (l.map issueBlock) := by
  induction l with
  | nil => intro init; simp [concatBlocks, strAppendEmpty]
  | cons v rest ih =>
    intro init
    simp only [List.foldl_cons, List.map_cons, concatBlocks, ih, strAppendAssoc]

/-- Decomposition of the summary text: the header carrying the total count,
followed by the rendering of the filtered top issues. -/
theorem summarize_results_eq (r : ScanResult) :
    summarize_results r
      = summaryHeader r.violations.length
          ++ renderTopIssues (r.violations.filter isTopIssue) := by
  unfold summarize_results renderTopIssues summaryHeader
  by_cases h : (r.violations.filter isTopIssue).length > 0
  · rw [if_pos h, if_pos h, foldl_append_blocks]
  · rw [if_neg h, if_neg h]

/-- Violations with equal digest fields produce the same filtered issue
blocks. -/
theorem digest_filter_map_eq :
    ∀ l1 l2 : List Violation,
    l1.map digestFields = l2.map digestFields →
    (l1.filter isTopIssue).map issueBlock
      = (l2.filter isTopIssue).map issueBlock := by
  intro l1
  induction l1 with
  | nil =>
    intro l2 h
    cases l2 with
    | nil => rfl
    | cons b bs => simp at h
  | cons a as ih =>
    intro l2 h
    cases l2 with
    | nil => simp at h
    | cons b bs =>
      simp only [List.map_cons, List.cons.injEq] at h
      obtain ⟨hab, hrest⟩ := h
      simp only [digestFields, Prod.mk.injEq] at hab
      obtain ⟨hHelp, hImpact, hDescr, hTags, hUrl, hNodes⟩ := hab
      have hTop : isTopIssue a = isTopIssue b := by
        simp [isTopIssue, hImpact]
      have hBlock : issueBlock a = issueBlock b := by
        simp [issueBlock, hHelp, hImpact, hDescr, hTags, hUrl, hNodes]
      simp only [List.filter_cons, hTop]
      rcases hb : isTopIssue b with _ | _
      · simpa using ih bs hrest
      · simpa [hBlock] using ih bs hrest

/-- C6: the summary reports a total equal to the number of all violation
records regardless of impact; the rendered top issues are exactly the
violations whose impact is critical or serious, in the original order; and
when there are none of those, the fixed sentinel line is rendered while the
total still counts the moderate and minor violations. -/
theorem spec_c6 :
    ∀ r : ScanResult,
    (summarize_results r
        = summaryHeader r.violations.length
            ++ renderTopIssues (r.violations.filter isTopIssue))
    ∧ (r.violations.filter isTopIssue ≠ [] →
        summarize_results r
          = summaryHeader r.violations.length
              ++ concatBlocks ((r.violations.filter isTopIssue).map issueBlock))
    ∧ (r.violations.filter isTopIssue = [] →
        summarize_results r
          = summaryHeader r.violations.length
              ++ "No critical or serious issues found.\n") := by
  intro r
  refine ⟨summarize_results_eq r, ?_, ?_⟩
  · intro hne
    rw [summarize_results_eq r]
    unfold renderTopIssues
    rw [if_pos (by simpa [List.length_pos] using hne)]
  · intro heq
    rw [summarize_results_eq r]
    unfold renderTopIssues
    rw [heq]
    rfl

/-- Witness for C6: a payload with only moderate and minor violations
renders the sentinel while its total counts both, and a mixed payload
renders exactly its critical issue block. -/
theorem spec_c6_witness :
    noTopPayload.violations.length = 2
    ∧ summarize_results noTopPayload
        = summaryHeader noTopPayload.violations.length
            ++ "No critical or serious issues found.\n"
    ∧ summarize_results mixedPayload
        = summaryHeader mixedPayload.violations.length
            ++ concatBlocks
                ((mixedPayload.violations.filter isTopIssue).map issueBlock) := by
  exact ⟨by decide, (spec_c6 noTopPayload).2.2 (by decide),
         (spec_c6 mixedPayload).2.1 (by decide)⟩

/-- C10: the summary text depends only on the violations sequence, and
within each violation only on its `help`, `impact`, `description`, `tags`,
`helpUrl` and `nodes` fields — two payloads agreeing on those (the rule
`id`, `passes`, `incomplete` and `inapplicable` may differ arbitrarily)
produce the identical summary. -/
theorem spec_c10 :
    ∀ r1 r2 : ScanResult,
    r1.violations.map digestFields = r2.violations.map digestFields →
    summarize_results r1 = summarize_results r2 := by
  intro r1 r2 h
  rw [summarize_results_eq, summarize_results_eq]
  have hlen : r1.violations.length = r2.violations.length := by
    simpa using congrArg List.length h
  have hmap := digest_filter_map_eq _ _ h
  have hflen : (r1.violations.filter isTopIssue).length
      = (r2.violations.filter isTopIssue).length := by
    simpa using congrArg List.length hmap
  rw [hlen]
  unfold renderTopIssues
  rw [hflen, hmap]

/-- Witness for C10: two payloads differing only in the rule id and the
pass-through fields get the same summary. -/
theorem spec_c10_witness : summarize_results payloadA = summarize_results payloadB := by
  exact spec_c10 payloadA payloadB (by decide)

/-- Witness for C1: instantiates the amended theorem at concrete inputs. -/
theorem spec_c1_witness :
    wcagScFromTags
        (["foo"] ++ String.mk ['w', 'c', 'a', 'g', '1', '4', '3'] :: ["wcag211"])
      = wcagScFromTags ["foo"]
          ++ String.mk ['1', '.', '4', '.', '3'] :: wcagScFromTags ["wcag211"]
    ∧ wcagScFromTags (["foo"] ++ "bar" :: ["wcag211"])
        = wcagScFromTags (["foo"] ++ ["wcag211"]) := by
  exact ⟨(spec_c1 ["foo"] ["wcag211"] '1' '4' '3'
            (by decide) (by decide) (by decide)).1,
         (spec_c1 ["foo"] ["wcag211"] '1' '4' '3'
            (by decide) (by decide) (by decide)).2.1 "bar" (by decide)⟩

/-- The finally-block `browser.close()` leaves no browser resource open,
whatever the try-block did and whether or not the close call reported an
error. -/
theorem tryFinally_close_state (o : Oracle) {α : Type}
    (body : BrowserSt → Except String α × BrowserSt) (s : BrowserSt) :
    closedAfter (tryFinally body (opBrowserClose o) s).2 := by
  rcases hbs : body s with ⟨r, s1⟩
  simp only [tryFinally, hbs, opBrowserClose, closedAfter]
  cases hc : o.browserCloseOk <;> simp

/-- A handler of the `launch; try { work } finally { close }` shape leaves
no browser resource open, starting from a state with none. -/
theorem withBrowser_closed (o : Oracle) {α : Type}
    (work : BrowserSt → Except String α × BrowserSt) (s : BrowserSt)
    (h1 : s.browserOpen = false) (h2 : s.openPages = 0) :
    closedAfter (withBrowser o work s).2 := by
  unfold withBrowser opLaunch
  cases hl : o.launchOk
  · simp [closedAfter, h1, h2]
  · simpa using tryFinally_close_state o work _

/-- When `browser.close()` succeeds, the finally block is transparent: the
caller receives exactly what the try-block computed. -/
theorem tryFinally_fst_of_closeOk (o : Oracle) {α : Type}
    (hc : o.browserCloseOk = true)
    (body : BrowserSt → Except String α × BrowserSt) (s : BrowserSt) :
    (tryFinally body (opBrowserClose o) s).1 = (body s).1 := by
  rcases hbs : body s with ⟨r, s1⟩
  simp [tryFinally, hbs, opBrowserClose, hc]

/-- When launch and close both succeed, a handler returns exactly what its
try-block computed on the freshly launched state. -/
theorem withBrowser_fst (o : Oracle) {α : Type}
    (hl : o.launchOk = true) (hc : o.browserCloseOk = true)
    (work : BrowserSt → Except String α × BrowserSt) (s : BrowserSt) :
    (withBrowser o work s).1 = (work (opLaunch o s).2).1 := by
  unfold withBrowser opLaunch
  simp [hl, tryFinally_fst_of_closeOk o hc]

/-- C3: for every scan strategy and every outcome of the external capability
calls — failures of navigation, waits (timeouts), file reads, injection or
evaluation included — the browser session and its pages are torn down before
the handler returns: no browser resource remains open afterwards. -/
theorem spec_c3 :
    ∀ (o : Oracle) (a1 : ScanUrlArgs) (a2 : ScanHtmlArgs) (a3 : ScanFileArgs)
      (a4 : BatchArgs) (a5 : LoginArgs),
    closedAfter (scan_url o a1 initSt).2
    ∧ closedAfter (scan_html o a2 initSt).2
    ∧ closedAfter (scan_file o a3 initSt).2
    ∧ closedAfter (scan_batch o a4 initSt).2
    ∧ closedAfter (scan_with_login o a5 initSt).2 := by
  intro o a1 a2 a3 a4 a5
  exact ⟨withBrowser_closed o _ initSt rfl rfl,
         withBrowser_closed o _ initSt rfl rfl,
         withBrowser_closed o _ initSt rfl rfl,
         withBrowser_closed o _ initSt rfl rfl,
         withBrowser_closed o _ initSt rfl rfl⟩

/-- C4 (amended): the result or error computed inside the scoped session
reaches the caller unchanged provided the teardown `close` succeeds; when
`close` fails its error propagates and replaces that result (see the
counterexample), because the handlers run `browser.close()` in a bare
`finally` with no catch around it. -/
theorem spec_c4 :
    ∀ o : Oracle, o.browserCloseOk = true → o.launchOk = true →
    ∀ (a1 : ScanUrlArgs) (a2 : ScanHtmlArgs) (a3 : ScanFileArgs)
      (a4 : BatchArgs) (a5 : LoginArgs),
    (scan_url o a1 initSt).1 = (scanUrlWork o a1 (opLaunch o initSt).2).1
    ∧ (scan_html o a2 initSt).1 = (scanHtmlWork o a2 (opLaunch o initSt).2).1
    ∧ (scan_file o a3 initSt).1 = (scanFileWork o a3 (opLaunch o initSt).2).1
    ∧ (scan_batch o a4 initSt).1
        = (batchLoop o a4 a4.urls [] (opLaunch o initSt).2).1
    ∧ (scan_with_login o a5 initSt).1
        = (scanLoginWork o a5 (opLaunch o initSt).2).1 := by
  intro o hc hl a1 a2 a3 a4 a5
  exact ⟨withBrowser_fst o hl hc _ initSt, withBrowser_fst o hl hc _ initSt,
         withBrowser_fst o hl hc _ initSt, withBrowser_fst o hl hc _ initSt,
         withBrowser_fst o hl hc _ initSt⟩

/-- C4 counterexample: with every step succeeding except `browser.close()`,
the `scan_url` try-block computes a successful scan payload, yet the caller
receives the close error instead — the close failure replaces the computed
result rather than being logged and ignored. -/
theorem spec_c4_counterexample :
    (scanUrlWork badCloseOracle sampleUrlArgs
        (opLaunch badCloseOracle initSt).2).1 = Except.ok emptyScanResult
    ∧ (scan_url badCloseOracle sampleUrlArgs initSt).1
        = Except.error "BrowserCloseError" := by
  exact ⟨rfl, rfl⟩

/-- Witness for C4: instantiates the amended theorem on the all-success
oracle and concrete requests. -/
theorem spec_c4_witness :
    (scan_url okOracle sampleUrlArgs initSt).1
        = (scanUrlWork okOracle sampleUrlArgs (opLaunch okOracle initSt).2).1
    ∧ (scan_html okOracle sampleHtmlArgs initSt).1
        = (scanHtmlWork okOracle sampleHtmlArgs (opLaunch okOracle initSt).2).1
    ∧ (scan_file okOracle sampleFileArgs initSt).1
        = (scanFileWork okOracle sampleFileArgs (opLaunch okOracle initSt).2).1
    ∧ (scan_batch okOracle twoUrlBatchArgs initSt).1
        = (batchLoop okOracle twoUrlBatchArgs twoUrlBatchArgs.urls []
            (opLaunch okOracle initSt).2).1
    ∧ (scan_with_login okOracle sampleLoginArgs initSt).1
        = (scanLoginWork okOracle sampleLoginArgs (opLaunch okOracle initSt).2).1 := by
  exact spec_c4 okOracle rfl rfl sampleUrlArgs sampleHtmlArgs sampleFileArgs
    twoUrlBatchArgs sampleLoginArgs

/-- C5: the `ScanArgs` schema declares `url` as `.optional()`, so a
`scan_url` request with no `url` at all passes validation — whatever the
well-formedness check for present urls is — and the handler then launches
the browser and only fails at the navigation step (`page.goto(args.url!)`),
contradicting the claim that such a request is rejected before any browser
resource is acquired. -/
theorem spec_c5 :
    ∀ urlOk : String → Bool,
    validateScanUrl urlOk noUrlArgs = true
    ∧ (scan_url okOracle noUrlArgs initSt).2.launched = true
    ∧ (scan_url okOracle noUrlArgs initSt).1 = Except.error "InvalidURLError" := by
  intro urlOk
  exact ⟨rfl, rfl, rfl⟩

/-- C9: when every capability call succeeds, the authenticated scan executes
exactly: launch, open page, navigate to the login url, type the username,
type the password, click submit, wait for the post-submit navigation,
navigate to the target url, inject the rule engine, evaluate it with the
resolved tag set, and close — in that order, with every navigation and wait
step bounded by the 60000 ms default timeout. -/
theorem spec_c9 :
    ∀ a : LoginArgs,
    (scan_with_login okOracle a initSt).2.trace
      = [Ev.launch, Ev.newPage, Ev.gotoUrl a.loginUrl 60000,
         Ev.typeText a.usernameSelector a.username,
         Ev.typeText a.passwordSelector a.password,
         Ev.click a.submitSelector, Ev.waitForNavigation 60000,
         Ev.gotoUrl a.url 60000, Ev.addScriptTag,
         Ev.evaluateAxe (tagsFor a.ruleset a.level a.extraTags),
         Ev.browserClose]
    ∧ (scan_with_login okOracle a initSt).1 = Except.ok emptyScanResult := by
  intro a
  exact ⟨rfl, rfl⟩

/-- The entry produced for one batch target always carries that target's
url, whether the scan succeeded or its failure was caught. -/
theorem batchScanEntry_target (o : Oracle) (a : BatchArgs) (url : String)
    (s : BrowserSt) : (batchScanEntry o a url s).1.target = url := by
  unfold batchScanEntry
  rcases hg : opGoto o (some url) 60000 s with ⟨rg, s1⟩
  cases rg with
  | error e => simp [hg, BatchEntry.target]
  | ok u =>
    rcases ha : runAxeOnPage o (tagsFor a.ruleset a.level a.extraTags) s1
      with ⟨ra, s2⟩
    cases ra <;> simp [hg, ha, BatchEntry.target]

/-- The batch loop, when every page open and page close succeeds, records
one entry per target in request order and never aborts, whatever the
navigation and evaluation outcomes are. -/
theorem batchLoop_ok (o : Oracle) (a : BatchArgs)
    (hNP : ∀ i, o.newPageOk i = true) (hPC : ∀ i, o.pageCloseOk i = true) :
    ∀ (urls : List String) (acc : List BatchEntry) (s : BrowserSt),
    ∃ entries, (batchLoop o a urls acc s).1 = Except.ok (acc ++ entries)
      ∧ entries.map BatchEntry.target = urls := by
  intro urls
  induction urls with
  | nil => intro acc s; exact ⟨[], by simp [batchLoop], rfl⟩
  | cons url rest ih =>
    intro acc s
    rcases hp : batchScanEntry o a url
        { s with steps := s.steps + 1, openPages := s.openPages + 1,
                 trace := s.trace ++ [Ev.newPage] } with ⟨entry, s2⟩
    have htarget : entry.target = url := by
      have h := batchScanEntry_target o a url
        { s with steps := s.steps + 1, openPages := s.openPages + 1,
                 trace := s.trace ++ [Ev.newPage] }
      rw [hp] at h
      exact h
    obtain ⟨entries, h1, h2⟩ := ih (acc ++ [entry])
      { s2 with steps := s2.steps + 1, openPages := s2.openPages - 1,
                trace := s2.trace ++ [Ev.pageClose] }
    refine ⟨entry :: entries, ?_, ?_⟩
    · simp only [batchLoop, opNewPage, hNP s.steps, if_true, opPageClose,
        hPC, hp]
      simpa using h1
    · simp [htarget, h2]

/-- C2 (amended): provided session acquisition succeeds and, for every
target, opening and closing its page succeed, the batch output is an
ordered sequence of exactly one entry per requested url in request order,
each entry carrying its target with a result or a caught error; navigation
and evaluation failures are recorded per entry and never abort the
remaining targets. (A failure of `browser.newPage()`, of `page.close()` or
of the final `browser.close()` does abort the whole call — see the
counterexample.) -/
theorem spec_c2 :
    ∀ (o : Oracle) (a : BatchArgs),
    o.launchOk = true → o.browserCloseOk = true →
    (∀ i, o.newPageOk i = true) → (∀ i, o.pageCloseOk i = true) →
    ∃ entries, (scan_batch o a initSt).1 = Except.ok entries
      ∧ entries.map BatchEntry.target = a.urls := by
  intro o a hl hc hnp hpc
  have hfst : (scan_batch o a initSt).1
      = (batchLoop o a a.urls [] (opLaunch o initSt).2).1 :=
    withBrowser_fst o hl hc _ initSt
  obtain ⟨entries, h1, h2⟩ :=
    batchLoop_ok o a hnp hpc a.urls [] (opLaunch o initSt).2
  refine ⟨entries, ?_, h2⟩
  rw [hfst, h1]
  simp

/-- C2 counterexample: with session acquisition succeeding but
`browser.newPage()` failing for the first target, the whole batch call
fails instead of recording `{target, error}` and continuing — the per-entry
isolation does not cover the page-open step. -/
theorem spec_c2_counterexample :
    badNewPageOracle.launchOk = true
    ∧ (scan_batch badNewPageOracle twoUrlBatchArgs initSt).1
        = Except.error "NewPageError" := by
  exact ⟨rfl, rfl⟩

/-- Witness for C2: the amended theorem instantiated on the all-success
oracle and a concrete two-target request. -/
theorem spec_c2_witness :
    ∃ entries, (scan_batch okOracle twoUrlBatchArgs initSt).1 = Except.ok entries
      ∧ entries.map BatchEntry.target = twoUrlBatchArgs.urls := by
  exact spec_c2 okOracle twoUrlBatchArgs rfl rfl (fun _ => rfl) (fun _ => rfl)

end A11y
